import Mathlib

/-!
Verification of the zemax2raysect translation core: a shallow embedding of the
surface classifier (builders/common.py), the optics builders
(builders/base.py, spherical.py, cylindrical.py, toroidal.py, flat.py),
the material lookup (materials.py), the surface factory (surface.py) and the
assembly state machine's mirror bookkeeping (builders/node.py), together with
theorems settling the specified properties.

Numbers are modelled by ℚ (the Python code uses exact comparisons and
rational constants throughout the relevant paths).  Fallible Python code
(raised exceptions) is modelled by `Except PyError`.  Exception messages are
not modelled; only the exception class matters for the properties below.
-/

namespace Zemax

deriving instance DecidableEq for Except

/-- Exception classes raised by the embedded code paths.
`cannotCreatePrimitive` is builders.common.CannotCreatePrimitive,
`cannotFindMaterial` is materials.CannotFindMaterial, the rest are Python
built-ins raised by the corresponding statements. -/
inductive PyError
  | cannotCreatePrimitive
  | cannotFindMaterial
  | attributeError
  | keyError
  | valueError
  | notImplementedError
  | typeError
  deriving DecidableEq, Repr

/-- Raysect materials, as far as the embedded code distinguishes them:
the two entries of the built-in MATERIALS catalogue in materials.py, the
pass-through NullMaterial, and a Schott-catalogue glass selected by name. -/
inductive Material
  | perfectReflecting
  | fusedSilica
  | null
  | schottGlass (catalogueName : String)
  deriving DecidableEq, Repr

/-- The built-in material catalogue MATERIALS of materials.py, as an
association list keyed by the exact dictionary keys. -/
def MATERIALS : List (String × Material) :=
  [("MIRROR", Material.perfectReflecting), ("F_SILICA", Material.fusedSilica)]

/-- Membership test of Python `name in MATERIALS` (a dict membership is a
key membership test). -/
def materialsContains (name : String) : Bool :=
  (MATERIALS.lookup name).isSome

/-- Python str.upper for the ASCII names involved, written via
List.map so that it evaluates by kernel reduction. -/
def strUpper (s : String) : String := ⟨s.data.map Char.toUpper⟩

/-- Python str.lower for the ASCII names involved. -/
def strLower (s : String) : String := ⟨s.data.map Char.toLower⟩

/-- materials.find_material.  The Schott catalogue is external to the
repository; it is passed in as the list of its glass names
(schott._schott_glass_data keys), so every theorem below holds for an
arbitrary catalogue.  The code:
  empty name -> NullMaterial();
  name.upper() in MATERIALS -> MATERIALS[name]   (KeyError if name itself
    is not a key);
  name.upper() in schott data -> schott(name);
  otherwise a fuzzy substring search over the catalogue, and
  CannotFindMaterial if nothing matches. -/
def find_material (schottData : List String) (name : String) : Except PyError Material :=
  if name = "" then
    Except.ok Material.null
  else if materialsContains (strUpper name) then
    match MATERIALS.lookup name with
    | some m => Except.ok m
    | none => Except.error PyError.keyError
  else if strUpper name ∈ schottData then
    Except.ok (Material.schottGlass name)
  else
    match schottData.find? (fun catalogueName =>
      decide ((strLower name).toList.IsInfix (strLower catalogueName).toList) ||
      decide ((strLower catalogueName).toList.IsInfix (strLower name).toList)) with
    | some catalogueName => Except.ok (Material.schottGlass catalogueName)
    | none => Except.error PyError.cannotFindMaterial

/-- np.sign(x).astype(int), as used by builders.common.sign. -/
def sign (x : ℚ) : ℤ :=
  if 0 < x then 1 else if x < 0 then -1 else 0

/-- SMALL_NUMBER = 1.0e-8 from builders/base.py (also the literal 1e-8
tolerance in builders/common.py and builders/flat.py). -/
def SMALL_NUMBER : ℚ := 1 / 100000000

/-- DEFAULT_THICKNESS = 1.0e-6 from builders/common.py. -/
def DEFAULT_THICKNESS : ℚ := 1 / 1000000

/-- Python `x or y` on floats: x if x is truthy (nonzero) else y. -/
def pyOr (x y : ℚ) : ℚ := if x ≠ 0 then x else y

/-- Python `x or y` on strings: x if nonempty else y. -/
def pyOrStr (x y : String) : String := if x ≠ "" then x else y

/-- builders.common.SurfaceType. -/
inductive SurfaceType
  | UNDETERMINED
  | FLAT
  | CYLINDRICAL
  | SPHERICAL
  | TOROIDAL
  deriving DecidableEq, Repr

/-- builders.common.ShapeType. -/
inductive ShapeType
  | UNDETERMINED
  | ROUND
  | RECTANGULAR
  deriving DecidableEq, Repr

/-- The fields shared by every surface.Surface dataclass instance.  The
dataclass defines exactly these attributes; in particular no Surface class
defines an `aperture_type` attribute (it is referenced, but never set,
anywhere in the code base). -/
structure SurfaceData where
  name : String := ""
  radius : ℚ := 0
  thickness : ℚ := 0
  material : String := ""
  semi_diameter : ℚ := 0
  aperture : Option (ℚ × ℚ) := none
  aperture_decenter : Option (ℚ × ℚ) := none
  deriving DecidableEq, Repr

/-- The Union[Standard, Toroidal] argument type of the builders: a Standard
surface carries only the common fields, a Toroidal surface adds
radius_horizontal. -/
inductive STSurface
  | standard (data : SurfaceData)
  | toroidal (data : SurfaceData) (radius_horizontal : ℚ)
  deriving DecidableEq, Repr

/-- The common-field record of either variant. -/
def STSurface.data : STSurface → SurfaceData
  | .standard d => d
  | .toroidal d _ => d

/-- builders.common.determine_primitive_type.  The shape branch evaluates
`surface.aperture is not None and surface.aperture_type == 'rectangular'`;
when the aperture is set, the access to the undefined attribute
`aperture_type` raises AttributeError (no Surface class or call site ever
sets this attribute), so the function returns only for aperture-free
surfaces.  The surface-type branch is the exact if/elif chain of the
source. -/
def determine_primitive_type (surface : STSurface) :
    Except PyError (SurfaceType × ShapeType) := do
  let shape_type ← match surface.data.aperture with
    | some _ => Except.error PyError.attributeError
    | none => Except.ok ShapeType.ROUND
  match surface with
  | .standard d =>
    pure (if d.radius = 0 then SurfaceType.FLAT else SurfaceType.SPHERICAL, shape_type)
  | .toroidal d radius_horizontal =>
    let rv := |d.radius|
    let rh := |radius_horizontal|
    let equal : Prop := |rv - rh| < SMALL_NUMBER
    let surface_type :=
      if rv = 0 ∧ rh = 0 then SurfaceType.FLAT
      else if rv ≠ 0 ∧ rh ≠ 0 ∧ ¬ equal then SurfaceType.TOROIDAL
      else if rv ≠ 0 ∧ rh ≠ 0 ∧ equal then SurfaceType.SPHERICAL
      else if (rv ≠ 0 ∧ rh = 0) ∨ (rv = 0 ∧ rh ≠ 0) then SurfaceType.CYLINDRICAL
      else SurfaceType.UNDETERMINED
    pure (surface_type, shape_type)

/-- OpticsBuilder._check_for_small_numbers from builders/base.py: rejects a
semi-diameter below SMALL_NUMBER and a thickness strictly between 0 and
SMALL_NUMBER. -/
def check_for_small_numbers (surface : SurfaceData) : Except PyError Unit :=
  if surface.semi_diameter < SMALL_NUMBER then
    Except.error PyError.cannotCreatePrimitive
  else if 0 < surface.thickness ∧ surface.thickness < SMALL_NUMBER then
    Except.error PyError.cannotCreatePrimitive
  else
    Except.ok ()

/-- LensBuilder._check_for_material from builders/base.py: the back surface
must carry a non-empty material name. -/
def check_for_material (back_surface : SurfaceData) : Except PyError Unit :=
  if back_surface.material = "" then
    Except.error PyError.cannotCreatePrimitive
  else
    Except.ok ()

/-- The `if not material: self._check_for_material(back_surface)` prefix of
the lens builders: with an override material the back-material check is
skipped. -/
def material_precheck (material : Option Material) (back_surface : SurfaceData) :
    Except PyError Unit :=
  match material with
  | some _ => Except.ok ()
  | none => check_for_material back_surface

/-- The `material or find_material(surface.material)` resolution shared by
all builders: an override material wins, otherwise the surface's material
name is looked up. -/
def resolve_material (schottData : List String) (material : Option Material)
    (name : String) : Except PyError Material :=
  match material with
  | some m => Except.ok m
  | none => find_material schottData name

/-- The mirror-bookkeeping state of OpticalNodeBuilder
(builders/node.py): the mirror-pass counter and the current propagation
direction.  build() initialises them to 0 and +1. -/
structure NodeState where
  mirrors_passed : ℕ
  current_direction : ℤ
  deriving DecidableEq, Repr

/-- The initial bookkeeping state set by OpticalNodeBuilder._clear_parameters. -/
def NodeState.initial : NodeState := ⟨0, 1⟩

/-- OpticalNodeBuilder._process_mirror: returns the updated state together
with the method's boolean result.  Only a surface whose material string is
exactly "MIRROR" increments the counter, and the direction is negated only
when the incremented counter is odd. -/
def process_mirror (st : NodeState) (material : String) : NodeState × Bool :=
  if material ≠ "MIRROR" then
    (st, false)
  else
    let mirrors_passed := st.mirrors_passed + 1
    let current_direction :=
      if mirrors_passed % 2 = 1 then -st.current_direction else st.current_direction
    (⟨mirrors_passed, current_direction⟩, true)

/-- The mirror bookkeeping of a run: fold _process_mirror over the material
names of the built surfaces, in order. -/
def mirror_walk (materials : List String) : NodeState :=
  materials.foldl (fun st m => (process_mirror st m).1) NodeState.initial

/-- raysect.core.AffineMatrix3D, modelled as a 4 × 4 rational matrix.  Every
matrix the embedded code builds has exact rational entries (the only
rotation angles used are 90 and 180 degrees). -/
def Mat4 : Type := Fin 4 → Fin 4 → ℚ

instance : DecidableEq Mat4 :=
  inferInstanceAs (DecidableEq (Fin 4 → Fin 4 → ℚ))

/-- AffineMatrix3D(): the identity transform (also the default local
transform of a freshly constructed raysect primitive). -/
def Mat4.id : Mat4 := fun i j => if i = j then 1 else 0

/-- Row-by-column product of two affine matrices. -/
def Mat4.mul (a b : Mat4) : Mat4 := fun i j =>
  a i 0 * b 0 j + a i 1 * b 1 j + a i 2 * b 2 j + a i 3 * b 3 j

/-- raysect.core.translate(x, y, z). -/
def Mat4.translate (x y z : ℚ) : Mat4 := fun i j =>
  if i = j then 1
  else if j = 3 then (if i = 0 then x else if i = 1 then y else if i = 2 then z else 0)
  else 0

/-- raysect.core.rotate_y(180): cos = -1, sin = 0. -/
def Mat4.rotate_y_180 : Mat4 := fun i j =>
  if i = j then (if i = 0 ∨ i = 2 then -1 else 1) else 0

/-- raysect.core.rotate_z(90): cos = 0, sin = 1. -/
def Mat4.rotate_z_90 : Mat4 := fun i j =>
  if i = 0 ∧ j = 1 then -1
  else if i = 1 ∧ j = 0 then 1
  else if (i = 2 ∧ j = 2) ∨ (i = 3 ∧ j = 3) then 1
  else 0

/-- builders.common.flip(thickness): the identity with entries [0,0] and
[2,2] set to -1 and entry [2,3] set to thickness. -/
def Mat4.flip (thickness : ℚ) : Mat4 := fun i j =>
  if i = 0 ∧ j = 0 then -1
  else if i = 2 ∧ j = 2 then -1
  else if i = 2 ∧ j = 3 then thickness
  else if i = j then 1
  else 0

/-- A transform is a pure translation when its linear (upper-left 3 × 3)
block is the identity. -/
def Mat4.IsPureTranslation (m : Mat4) : Prop :=
  ∀ i j : Fin 4, i ≠ 3 → j ≠ 3 → m i j = (if i = j then 1 else 0)

instance (m : Mat4) : Decidable m.IsPureTranslation :=
  inferInstanceAs (Decidable (∀ _ _, _ → _ → _))

/-- Modelled from the spec: the mirror primitive classes
(primitive/mirror/spherical.py, cylindrical.py and toric.py) are not under
src; the spec (section 4.4 and 6) describes them only as collaborator
constructors whose result exposes its own center thickness.  No claim below
depends on the numeric value, only on the primitive being a slab of
positive thickness (compare DEFAULT_THICKNESS in builders/common.py, used
precisely because zero-thickness primitives are not allowed); it is
modelled as that positive constant. -/
def mirrorCenterThickness : ℚ := DEFAULT_THICKNESS

/-- primitive.mirror.spherical.RoundSphericalMirror and
RectangularSphericalMirror, holding the constructor arguments passed by
SphericalMirrorBuilder.build. -/
inductive SphericalMirror
  | round (diameter curvature aperture horizontal_decenter vertical_decenter : ℚ)
      (material : Material) (name : String)
  | rectangular (width height curvature aperture horizontal_decenter vertical_decenter : ℚ)
      (material : Material) (name : String)
  deriving DecidableEq, Repr

/-- The mirror primitive's own center thickness (see mirrorCenterThickness). -/
def SphericalMirror.center_thickness (_ : SphericalMirror) : ℚ := mirrorCenterThickness

/-- primitive.mirror.cylindrical.RoundCylindricalMirror and
RectangularCylindricalMirror, holding the constructor arguments passed by
CylindricalMirrorBuilder.build. -/
inductive CylindricalMirror
  | round (diameter curvature aperture horizontal_decenter vertical_decenter : ℚ)
      (material : Material) (name : String)
  | rectangular (width height curvature aperture horizontal_decenter vertical_decenter : ℚ)
      (material : Material) (name : String)
  deriving DecidableEq, Repr

/-- The mirror primitive's own center thickness (see mirrorCenterThickness). -/
def CylindricalMirror.center_thickness (_ : CylindricalMirror) : ℚ := mirrorCenterThickness

/-- primitive.mirror.toric.ToricMirror, holding the constructor arguments
passed by ToricMirrorBuilder.build (note: no thickness argument is passed). -/
structure ToricMirror where
  diameter : ℚ
  vertical_curvature : ℚ
  horizontal_curvature : ℚ
  material : Material
  name : String
  deriving DecidableEq, Repr

/-- The mirror primitive's own center thickness (see mirrorCenterThickness). -/
def ToricMirror.center_thickness (_ : ToricMirror) : ℚ := mirrorCenterThickness

/-- builders.common.transform_according_to_direction.  The source receives
the mirror object and reads mirror.center_thickness; the embedding receives
that value directly. -/
def transform_according_to_direction (center_thickness : ℚ)
    (direction curvature_sign : ℤ) : Mat4 :=
  if direction = 1 ∧ curvature_sign = 1 then Mat4.translate 0 0 center_thickness
  else if direction = 1 ∧ curvature_sign = -1 then Mat4.rotate_y_180
  else Mat4.id

/-- SphericalMirrorBuilder.build (builders/spherical.py), including
_extract_parameters.  Returns the constructed mirror together with the
local transform assigned to it. -/
def sphericalMirrorBuilder_build (schottData : List String) (surface : STSurface)
    (direction : ℤ) (material : Option Material) :
    Except PyError (SphericalMirror × Mat4) := do
  check_for_small_numbers surface.data
  let (surface_type, shape_type) ← determine_primitive_type surface
  if surface_type ≠ SurfaceType.SPHERICAL then
    Except.error PyError.cannotCreatePrimitive
  else if shape_type ≠ ShapeType.RECTANGULAR ∧ shape_type ≠ ShapeType.ROUND then
    Except.error PyError.cannotCreatePrimitive
  else do
    let curvature := |surface.data.radius|
    let curvature_sign := sign surface.data.radius
    -- ShapeType.RECTANGULAR is unreachable while determine_primitive_type
    -- raises on every aperture-set surface; the branch is kept faithfully,
    -- reading the aperture fields the source would read.
    let (diameter, aperture) :=
      match surface.data.aperture with
      | some (a0, a1) => (2 * a1, 2 * a0)
      | none => (2 * surface.data.semi_diameter, 0)
    let (width, height) :=
      match surface.data.aperture with
      | some (a0, a1) => (2 * a0, 2 * a1)
      | none => (0, 0)
    let (hd0, vd) :=
      match surface.data.aperture_decenter with
      | some (dx, dy) => (dx, dy)
      | none => (0, 0)
    let horizontal_decenter := if curvature_sign = -1 then -hd0 else hd0
    let mat ← resolve_material schottData material surface.data.material
    let mirror :=
      if shape_type = ShapeType.ROUND then
        SphericalMirror.round diameter curvature aperture horizontal_decenter vd
          mat surface.data.name
      else
        SphericalMirror.rectangular width height curvature aperture horizontal_decenter vd
          mat surface.data.name
    Except.ok (mirror,
      transform_according_to_direction mirror.center_thickness direction curvature_sign)

/-- Access to Toroidal.radius_horizontal: a Standard surface has no such
attribute, so the access raises AttributeError. -/
def STSurface.radius_horizontal_attr : STSurface → Except PyError ℚ
  | .standard _ => Except.error PyError.attributeError
  | .toroidal _ rh => Except.ok rh

/-- CylindricalMirrorBuilder.build (builders/cylindrical.py), including
_extract_parameters.  Returns the constructed mirror together with the
local transform assigned to it. -/
def cylindricalMirrorBuilder_build (schottData : List String) (surface : STSurface)
    (direction : ℤ) (material : Option Material) :
    Except PyError (CylindricalMirror × Mat4) := do
  match surface with
  | .standard _ => Except.error PyError.cannotCreatePrimitive
  | .toroidal d radius_horizontal => do
    check_for_small_numbers d
    let (surface_type, shape_type) ← determine_primitive_type surface
    if surface_type ≠ SurfaceType.CYLINDRICAL then
      Except.error PyError.cannotCreatePrimitive
    else if shape_type ≠ ShapeType.RECTANGULAR ∧ shape_type ≠ ShapeType.ROUND then
      Except.error PyError.cannotCreatePrimitive
    else do
      let stuff ←
        if d.radius ≠ 0 then
          if radius_horizontal ≠ 0 then
            Except.error PyError.cannotCreatePrimitive
          else
            Except.ok (|d.radius|, sign d.radius, Mat4.id,
              (match d.aperture with
               | some (a0, a1) => (2 * a0, 2 * a1)
               | none => (0, 0)),
              (match d.aperture_decenter with
               | some (dx, dy) => (dx, dy)
               | none => (0, 0)))
        else if radius_horizontal ≠ 0 then
          Except.ok (|radius_horizontal|, sign radius_horizontal, Mat4.rotate_z_90,
            (match d.aperture with
             | some (a0, a1) => (2 * a1, 2 * a0)
             | none => (0, 0)),
            (match d.aperture_decenter with
             | some (dx, dy) => (-dy, dx)
             | none => (0, 0)))
        else
          Except.error PyError.cannotCreatePrimitive
      let (curvature, curvature_sign, rotation, wh, dec) := stuff
      let (width, height) := wh
      let (hd0, vd) := dec
      let (diameter, aperture) :=
        match d.aperture with
        | some (a0, a1) => (2 * a1, 2 * a0)
        | none => (2 * d.semi_diameter, 0)
      let horizontal_decenter := if curvature_sign = -1 then -hd0 else hd0
      let mat ← resolve_material schottData material d.material
      let mirror :=
        if shape_type = ShapeType.ROUND then
          CylindricalMirror.round diameter curvature aperture horizontal_decenter vd
            mat d.name
        else
          CylindricalMirror.rectangular width height curvature aperture horizontal_decenter vd
            mat d.name
      Except.ok (mirror,
        Mat4.mul (transform_according_to_direction mirror.center_thickness direction curvature_sign)
          rotation)

/-- ToricMirrorBuilder.build (builders/toroidal.py), including
_extract_parameters.  The call to transform_according_to_direction is
commented out in the source; only the (direction = 1, curvature sign = -1)
rotation is applied, every other case leaves the primitive's default
identity transform. -/
def toricMirrorBuilder_build (schottData : List String) (surface : STSurface)
    (direction : ℤ) (material : Option Material) :
    Except PyError (ToricMirror × Mat4) := do
  match surface with
  | .standard _ => Except.error PyError.cannotCreatePrimitive
  | .toroidal d radius_horizontal => do
    check_for_small_numbers d
    let (surface_type, shape_type) ← determine_primitive_type surface
    if surface_type ≠ SurfaceType.TOROIDAL then
      Except.error PyError.cannotCreatePrimitive
    else if sign d.radius ≠ sign radius_horizontal then
      Except.error PyError.notImplementedError
    else if shape_type ≠ ShapeType.RECTANGULAR ∧ shape_type ≠ ShapeType.ROUND then
      Except.error PyError.cannotCreatePrimitive
    else do
      let mat ← resolve_material schottData material d.material
      let curvature_sign := sign d.radius
      let mirror : ToricMirror :=
        { diameter := 2 * d.semi_diameter
          vertical_curvature := |d.radius|
          horizontal_curvature := |radius_horizontal|
          material := mat
          name := d.name }
      let transform :=
        if direction = 1 ∧ curvature_sign = -1 then Mat4.rotate_y_180 else Mat4.id
      Except.ok (mirror, transform)

/-- raysect.primitive.Cylinder as constructed by
builders.flat.CylinderBuilder: radius, height (called thickness there),
material and name. -/
structure CylinderPrim where
  radius : ℚ
  thickness : ℚ
  material : Material
  name : String
  deriving DecidableEq, Repr

/-- builders.flat.create_cylinder, i.e. CylinderBuilder.build.  Note that it
resolves the material itself from the surface's material name; a
user-supplied override never reaches it. -/
def create_cylinder (schottData : List String) (surface : STSurface) :
    Except PyError CylinderPrim := do
  if surface.data.semi_diameter < SMALL_NUMBER then
    Except.error PyError.cannotCreatePrimitive
  else do
    let (surface_type, shape_type) ← determine_primitive_type surface
    if surface_type ≠ SurfaceType.FLAT then
      Except.error PyError.cannotCreatePrimitive
    else if shape_type ≠ ShapeType.ROUND then
      Except.error PyError.cannotCreatePrimitive
    else do
      let mat ← find_material schottData surface.data.material
      Except.ok
        { radius := surface.data.semi_diameter
          thickness := pyOr surface.data.thickness DEFAULT_THICKNESS
          material := mat
          name := surface.data.name }

/-- Constructor arguments of the two-curvature spherical lens classes
(raysect BiConvex/BiConcave and primitive.lens.spherical.Meniscus).
Modelled from the spec's collaborator interface (section 6): the external
lens constructors store their normalized numeric shape parameters, and the
primitive's center_thickness attribute equals the constructor argument. -/
structure BicurveLensParams where
  diameter : ℚ
  center_thickness : ℚ
  back_curvature : ℚ
  front_curvature : ℚ
  material : Material
  name : String
  deriving DecidableEq, Repr

/-- Constructor arguments of the single-curvature spherical lens classes
(raysect PlanoConvex/PlanoConcave); see BicurveLensParams. -/
structure SinglecurveLensParams where
  diameter : ℚ
  center_thickness : ℚ
  curvature : ℚ
  material : Material
  name : String
  deriving DecidableEq, Repr

/-- The primitive returned by SphericalLensBuilder.build: one of the five
lens classes it instantiates, or the degenerate raysect Cylinder from
create_cylinder. -/
inductive SphericalLensPrimitive
  | cylinder (c : CylinderPrim)
  | meniscus (p : BicurveLensParams)
  | biConvex (p : BicurveLensParams)
  | biConcave (p : BicurveLensParams)
  | planoConvex (p : SinglecurveLensParams)
  | planoConcave (p : SinglecurveLensParams)
  deriving DecidableEq, Repr

/-- A built lens: the primitive and the local transform left on it (the
identity unless a flip was applied). -/
structure SphLensResult where
  primitive : SphericalLensPrimitive
  transform : Mat4
  deriving DecidableEq

/-- The parameter fields SphericalLensBuilder._extract_parameters stores on
the builder instance. -/
structure SphLensParams where
  diameter : ℚ
  center_thickness : ℚ
  back_curvature : ℚ
  front_curvature : ℚ
  material : Material
  name : String
  deriving DecidableEq, Repr

/-- SphericalLensBuilder._extract_parameters (builders/spherical.py).
Non-round shapes only produce log warnings in the source and are not
errors. -/
def sphericalLensBuilder_extract (schottData : List String) (back front : STSurface)
    (material : Option Material) : Except PyError SphLensParams := do
  material_precheck material back.data
  check_for_small_numbers back.data
  check_for_small_numbers front.data
  let (back_surface_type, _back_shape_type) ← determine_primitive_type back
  let (front_surface_type, _front_shape_type) ← determine_primitive_type front
  if back_surface_type ≠ SurfaceType.FLAT ∧ back_surface_type ≠ SurfaceType.SPHERICAL then
    Except.error PyError.cannotCreatePrimitive
  else if front_surface_type ≠ SurfaceType.FLAT ∧ front_surface_type ≠ SurfaceType.SPHERICAL then
    Except.error PyError.cannotCreatePrimitive
  else do
    let mat ← resolve_material schottData material back.data.material
    Except.ok
      { diameter := pyOr (back.data.semi_diameter * 2) (front.data.semi_diameter * 2)
        center_thickness := back.data.thickness
        back_curvature := |back.data.radius|
        front_curvature := |front.data.radius|
        material := mat
        name := pyOrStr back.data.name front.data.name }

/-- The curvature-sign dispatch of SphericalLensBuilder.build, using the
extracted parameters. -/
def sphericalLensBuilder_dispatch (schottData : List String) (back front : STSurface)
    (p : SphLensParams) : Except PyError SphLensResult :=
  let back_sgn := sign back.data.radius
  let front_sgn := sign front.data.radius
  if back_sgn = 0 ∧ front_sgn = 0 then do
    let c ← create_cylinder schottData back
    Except.ok ⟨.cylinder c, Mat4.id⟩
  else if back_sgn < 0 ∧ front_sgn < 0 then
    Except.ok ⟨.meniscus
      ⟨p.diameter, p.center_thickness, p.back_curvature, p.front_curvature,
        p.material, p.name⟩, Mat4.id⟩
  else if back_sgn > 0 ∧ front_sgn > 0 then
    Except.ok ⟨.meniscus
      ⟨p.diameter, p.center_thickness, p.front_curvature, p.back_curvature,
        p.material, p.name⟩, Mat4.flip p.center_thickness⟩
  else if back_sgn > 0 ∧ front_sgn < 0 then
    Except.ok ⟨.biConvex
      ⟨p.diameter, p.center_thickness, p.back_curvature, p.front_curvature,
        p.material, p.name⟩, Mat4.id⟩
  else if back_sgn < 0 ∧ front_sgn > 0 then
    Except.ok ⟨.biConcave
      ⟨p.diameter, p.center_thickness, p.back_curvature, p.front_curvature,
        p.material, p.name⟩, Mat4.id⟩
  else if back_sgn = 0 then
    if front_sgn < 0 then
      Except.ok ⟨.planoConvex
        ⟨p.diameter, p.center_thickness, p.front_curvature, p.material, p.name⟩, Mat4.id⟩
    else
      Except.ok ⟨.planoConcave
        ⟨p.diameter, p.center_thickness, p.front_curvature, p.material, p.name⟩, Mat4.id⟩
  else if front_sgn = 0 then
    if back_sgn > 0 then
      Except.ok ⟨.planoConvex
        ⟨p.diameter, p.center_thickness, p.back_curvature, p.material, p.name⟩,
        Mat4.flip p.center_thickness⟩
    else
      Except.ok ⟨.planoConcave
        ⟨p.diameter, p.center_thickness, p.back_curvature, p.material, p.name⟩,
        Mat4.flip p.center_thickness⟩
  else
    Except.error PyError.cannotCreatePrimitive

/-- SphericalLensBuilder.build (builders/spherical.py): extract the
parameters, then dispatch on the two curvature signs. -/
def sphericalLensBuilder_build (schottData : List String) (back front : STSurface)
    (material : Option Material) : Except PyError SphLensResult := do
  let p ← sphericalLensBuilder_extract schottData back front material
  sphericalLensBuilder_dispatch schottData back front p

/-- The primitive returned by CylindricalLensBuilder.build
(primitive.lens.cylindrical classes, or the degenerate Cylinder). -/
inductive CylindricalLensPrimitive
  | cylinder (c : CylinderPrim)
  | meniscus (p : BicurveLensParams)
  | biConvex (p : BicurveLensParams)
  | biConcave (p : BicurveLensParams)
  | planoConvex (p : SinglecurveLensParams)
  | planoConcave (p : SinglecurveLensParams)
  deriving DecidableEq, Repr

/-- A built cylindrical lens: primitive plus the local transform left on it
(the orientation rotation, possibly composed with a flip). -/
structure CylLensResult where
  primitive : CylindricalLensPrimitive
  transform : Mat4
  deriving DecidableEq

/-- CylindricalLensBuilder.build (builders/cylindrical.py), including
_extract_parameters.  Note the builder rejects a flat-flat pair outright,
making the degenerate-cylinder branch of its dispatch unreachable; the
fall-through of the orientation chain (radius and radius_horizontal both
nonzero and equal) leaves the sign parameters None, so the first None
comparison in build would raise TypeError; it is unreachable because such a
surface classifies as SPHERICAL and is rejected earlier.  The builder reads
radius_horizontal of both surfaces, which raises AttributeError on a
Standard surface. -/
def cylindricalLensBuilder_build (schottData : List String) (back front : STSurface)
    (material : Option Material) : Except PyError CylLensResult := do
  material_precheck material back.data
  check_for_small_numbers back.data
  check_for_small_numbers front.data
  let (back_surface_type, back_shape_type) ← determine_primitive_type back
  let (front_surface_type, front_shape_type) ← determine_primitive_type front
  if back_surface_type ≠ SurfaceType.FLAT ∧ back_surface_type ≠ SurfaceType.CYLINDRICAL then
    Except.error PyError.cannotCreatePrimitive
  else if front_surface_type ≠ SurfaceType.FLAT ∧ front_surface_type ≠ SurfaceType.CYLINDRICAL then
    Except.error PyError.cannotCreatePrimitive
  else if back_surface_type = SurfaceType.FLAT ∧ front_surface_type = SurfaceType.FLAT then
    Except.error PyError.cannotCreatePrimitive
  else if back_shape_type ≠ ShapeType.ROUND ∨ front_shape_type ≠ ShapeType.ROUND then
    Except.error PyError.cannotCreatePrimitive
  else do
    let back_rh ← back.radius_horizontal_attr
    let params ←
      if back_rh = 0 then do
        let front_rh ← front.radius_horizontal_attr
        if front_rh ≠ 0 then
          Except.error PyError.notImplementedError
        else
          Except.ok (|back.data.radius|, sign back.data.radius,
            |front.data.radius|, sign front.data.radius, Mat4.id)
      else if back.data.radius = 0 then do
        if front.data.radius ≠ 0 then
          Except.error PyError.notImplementedError
        else do
          let front_rh ← front.radius_horizontal_attr
          Except.ok (|back_rh|, sign back_rh, |front_rh|, sign front_rh, Mat4.rotate_z_90)
      else if back.data.radius ≠ back_rh then
        Except.error PyError.cannotCreatePrimitive
      else
        -- parameters stay None; build's first None < 0 comparison raises
        -- TypeError (unreachable: such a surface classifies as SPHERICAL)
        Except.error PyError.typeError
    let (back_curvature, back_sgn, front_curvature, front_sgn, rotation) := params
    let diameter := pyOr (back.data.semi_diameter * 2) (front.data.semi_diameter * 2)
    let center_thickness := pyOr back.data.thickness DEFAULT_THICKNESS
    let mat ← resolve_material schottData material back.data.material
    let name := pyOrStr back.data.name front.data.name
    if back_sgn = 0 ∧ front_sgn = 0 then do
      let c ← create_cylinder schottData back
      Except.ok ⟨.cylinder c, Mat4.id⟩
    else if back_sgn < 0 ∧ front_sgn < 0 then
      Except.ok ⟨.meniscus
        ⟨diameter, center_thickness, back_curvature, front_curvature, mat, name⟩, rotation⟩
    else if back_sgn > 0 ∧ front_sgn > 0 then
      Except.ok ⟨.meniscus
        ⟨diameter, center_thickness, front_curvature, back_curvature, mat, name⟩,
        Mat4.mul (Mat4.flip center_thickness) rotation⟩
    else if back_sgn > 0 ∧ front_sgn < 0 then
      Except.ok ⟨.biConvex
        ⟨diameter, center_thickness, back_curvature, front_curvature, mat, name⟩, rotation⟩
    else if back_sgn < 0 ∧ front_sgn > 0 then
      Except.ok ⟨.biConcave
        ⟨diameter, center_thickness, back_curvature, front_curvature, mat, name⟩, rotation⟩
    else if back_sgn = 0 then
      if front_sgn < 0 then
        Except.ok ⟨.planoConvex
          ⟨diameter, center_thickness, front_curvature, mat, name⟩, rotation⟩
      else
        Except.ok ⟨.planoConcave
          ⟨diameter, center_thickness, front_curvature, mat, name⟩, rotation⟩
    else if front_sgn = 0 then
      if back_sgn > 0 then
        Except.ok ⟨.planoConvex
          ⟨diameter, center_thickness, back_curvature, mat, name⟩,
          Mat4.mul (Mat4.flip center_thickness) rotation⟩
      else
        Except.ok ⟨.planoConcave
          ⟨diameter, center_thickness, back_curvature, mat, name⟩,
          Mat4.mul (Mat4.flip center_thickness) rotation⟩
    else
      Except.error PyError.cannotCreatePrimitive

/-- Constructor arguments of the two-curvature toric lens classes
(primitive.lens.toric); see BicurveLensParams for the modelling note. -/
structure ToricBicurveParams where
  diameter : ℚ
  center_thickness : ℚ
  front_curvature_vertical : ℚ
  front_curvature_horizontal : ℚ
  back_curvature_vertical : ℚ
  back_curvature_horizontal : ℚ
  material : Material
  name : String
  deriving DecidableEq, Repr

/-- Constructor arguments of the single-curvature toric lens classes. -/
structure ToricPlanoParams where
  diameter : ℚ
  center_thickness : ℚ
  curvature_vertical : ℚ
  curvature_horizontal : ℚ
  material : Material
  name : String
  deriving DecidableEq, Repr

/-- The primitive returned by ToricLensBuilder.build. -/
inductive ToricLensPrimitive
  | cylinder (c : CylinderPrim)
  | biConvex (p : ToricBicurveParams)
  | biConcave (p : ToricBicurveParams)
  | meniscus (p : ToricBicurveParams)
  | planoConvex (p : ToricPlanoParams)
  | planoConcave (p : ToricPlanoParams)
  deriving DecidableEq, Repr

/-- A built toric lens: primitive plus the local transform left on it. -/
structure ToricLensResult where
  primitive : ToricLensPrimitive
  transform : Mat4
  deriving DecidableEq

/-- ToricLensBuilder.build (builders/toroidal.py), including
_extract_parameters.  Note the guard
`sign(radius) == (-1) * sign(radius_horizontal)` fires whenever both signs
are zero, so every flat surface (both radii zero) raises ValueError here. -/
def toricLensBuilder_build (schottData : List String) (back front : STSurface)
    (direction : ℤ) (material : Option Material) : Except PyError ToricLensResult := do
  material_precheck material back.data
  check_for_small_numbers back.data
  check_for_small_numbers front.data
  match back, front with
  | .toroidal back_d back_rh, .toroidal front_d front_rh => do
    let (back_surface_type, _back_shape_type) ← determine_primitive_type back
    if back_surface_type ≠ SurfaceType.FLAT ∧ back_surface_type ≠ SurfaceType.TOROIDAL then
      Except.error PyError.cannotCreatePrimitive
    else do
      let (front_surface_type, _front_shape_type) ← determine_primitive_type front
      if front_surface_type ≠ SurfaceType.FLAT ∧ front_surface_type ≠ SurfaceType.TOROIDAL then
        Except.error PyError.cannotCreatePrimitive
      else if sign back_d.radius = -1 * sign back_rh then
        Except.error PyError.valueError
      else if sign front_d.radius = -1 * sign front_rh then
        Except.error PyError.valueError
      else do
        let diameter := back_d.semi_diameter * 2
        let center_thickness := back_d.thickness
        let back_curvature_vertical := |back_d.radius|
        let back_curvature_horizontal := |back_rh|
        let front_curvature_vertical := |front_d.radius|
        let front_curvature_horizontal := |front_rh|
        let mat ← resolve_material schottData material back_d.material
        let name := pyOrStr back_d.name front_d.name
        let back_sgn := sign back_d.radius * sign (direction : ℚ)
        let front_sgn := sign front_d.radius * sign (direction : ℚ)
        if back_sgn = 0 ∧ front_sgn = 0 then do
          let c ← create_cylinder schottData back
          Except.ok ⟨.cylinder c, Mat4.id⟩
        else if back_sgn > 0 ∧ front_sgn < 0 then
          Except.ok ⟨.biConvex
            ⟨diameter, center_thickness, front_curvature_vertical, front_curvature_horizontal,
              back_curvature_vertical, back_curvature_horizontal, mat, name⟩, Mat4.id⟩
        else if back_sgn < 0 ∧ front_sgn > 0 then
          Except.ok ⟨.biConcave
            ⟨diameter, center_thickness, front_curvature_vertical, front_curvature_horizontal,
              back_curvature_vertical, back_curvature_horizontal, mat, name⟩, Mat4.id⟩
        else if back_sgn < 0 ∧ front_sgn < 0 then
          Except.ok ⟨.meniscus
            ⟨diameter, center_thickness, front_curvature_vertical, front_curvature_horizontal,
              back_curvature_vertical, back_curvature_horizontal, mat, name⟩, Mat4.id⟩
        else if back_sgn > 0 ∧ front_sgn > 0 then
          Except.ok ⟨.meniscus
            ⟨diameter, center_thickness, back_curvature_vertical, back_curvature_horizontal,
              front_curvature_vertical, front_curvature_horizontal, mat, name⟩,
            Mat4.flip center_thickness⟩
        else if back_sgn = 0 then
          if front_sgn < 0 then
            Except.ok ⟨.planoConvex
              ⟨diameter, center_thickness, front_curvature_vertical,
                front_curvature_horizontal, mat, name⟩, Mat4.id⟩
          else
            Except.ok ⟨.planoConcave
              ⟨diameter, center_thickness, front_curvature_vertical,
                front_curvature_horizontal, mat, name⟩, Mat4.id⟩
        else if front_sgn = 0 then
          if back_sgn > 0 then
            Except.ok ⟨.planoConvex
              ⟨diameter, center_thickness, back_curvature_vertical,
                back_curvature_horizontal, mat, name⟩, Mat4.flip center_thickness⟩
          else
            Except.ok ⟨.planoConcave
              ⟨diameter, center_thickness, back_curvature_vertical,
                back_curvature_horizontal, mat, name⟩, Mat4.flip center_thickness⟩
        else
          Except.error PyError.cannotCreatePrimitive
  | _, _ => Except.error PyError.cannotCreatePrimitive

/-- surface.SurfaceDescription: the flat record parsed from one ZMX surface
block.  The keyed-parameter dict is modelled as an association list with
distinct keys (a Python dict); its length is the dict's size. -/
structure SurfaceDescription where
  n : ℤ := -1
  name : String := ""
  type : String := ""
  curv : ℚ := 0
  disz : ℚ := 0
  glas : String := ""
  diam : ℚ := 0
  sqap : Option (ℚ × ℚ) := none
  obdc : Option (ℚ × ℚ) := none
  parm : List (ℤ × ℚ) := []
  deriving DecidableEq, Repr

/-- surface.SurfaceBuilder.build: initialize the common Surface fields from
a description, applying the unit factor to every length-valued field.  The
radius stays at its default 0 when the curvature is 0. -/
def surfaceBuilder_build (description : SurfaceDescription) (units_factor : ℚ) :
    SurfaceData :=
  { name := description.name
    radius := if description.curv ≠ 0 then 1 / description.curv * units_factor else 0
    thickness := description.disz * units_factor
    material := description.glas
    semi_diameter := description.diam * units_factor
    aperture := description.sqap.map (fun a => (a.1 * units_factor, a.2 * units_factor))
    aperture_decenter := description.obdc.map (fun a => (a.1 * units_factor, a.2 * units_factor)) }

/-- surface.Toroidal.create: requires the TOROIDAL or BICONICX type tag and
at least 2 keyed parameters, then reads parameter 1 as the horizontal
radius (KeyError if key 1 is absent from the dict). -/
def Toroidal_create (description : SurfaceDescription) (units_factor : ℚ) :
    Except PyError STSurface :=
  if description.type ≠ "TOROIDAL" ∧ description.type ≠ "BICONICX" then
    Except.error PyError.valueError
  else if description.parm.length < 2 then
    Except.error PyError.valueError
  else
    match description.parm.lookup 1 with
    | none => Except.error PyError.keyError
    | some p1 =>
      Except.ok (.toroidal (surfaceBuilder_build description units_factor) (p1 * units_factor))

/-! ## Spec-side definitions (for refinement comparisons) -/

/-- Following the spec's words (section 4.3) for the SurfaceType half of the
classifier: FLAT iff radius is 0 for a Standard surface; for a Toroidal
surface with rv = |radius| and rh = |radius_horizontal|, FLAT when both are
zero, SPHERICAL when both are nonzero and within the 1e-8 tolerance,
TOROIDAL when both are nonzero and not within it, CYLINDRICAL when exactly
one is zero. -/
def specSurfaceType : STSurface → SurfaceType
  | .standard d => if d.radius = 0 then SurfaceType.FLAT else SurfaceType.SPHERICAL
  | .toroidal d radius_horizontal =>
    let rv := |d.radius|
    let rh := |radius_horizontal|
    if rv = 0 ∧ rh = 0 then SurfaceType.FLAT
    else if rv ≠ 0 ∧ rh ≠ 0 ∧ |rv - rh| < SMALL_NUMBER then SurfaceType.SPHERICAL
    else if rv ≠ 0 ∧ rh ≠ 0 then SurfaceType.TOROIDAL
    else SurfaceType.CYLINDRICAL

/-- The nine documented lens shapes of the decision table (spec section 4.4). -/
inductive LensShape
  | plainCylinder
  | positiveMeniscus
  | negativeMeniscus
  | biconvex
  | biconcave
  | planoConvex
  | planoConcave
  | convexPlano
  | concavePlano
  deriving DecidableEq, Repr

/-- Following the spec's words: the documented decision table from the pair
(back sign, front sign) to the shape outcome; none outside the 3 x 3 sign
domain. -/
def shapeTable (back_sgn front_sgn : ℤ) : Option LensShape :=
  if back_sgn = 0 ∧ front_sgn = 0 then some .plainCylinder
  else if back_sgn = -1 ∧ front_sgn = -1 then some .positiveMeniscus
  else if back_sgn = 1 ∧ front_sgn = 1 then some .negativeMeniscus
  else if back_sgn = 1 ∧ front_sgn = -1 then some .biconvex
  else if back_sgn = -1 ∧ front_sgn = 1 then some .biconcave
  else if back_sgn = 0 ∧ front_sgn = -1 then some .planoConvex
  else if back_sgn = 0 ∧ front_sgn = 1 then some .planoConcave
  else if back_sgn = 1 ∧ front_sgn = 0 then some .convexPlano
  else if back_sgn = -1 ∧ front_sgn = 0 then some .concavePlano
  else none

/-- Which documented shape a built spherical lens result is: read off the
instantiated lens class, distinguishing the flipped variants by the flip
transform left on the primitive (a flip transform is never the identity,
see flip_ne_id). -/
def SphLensResult.shape (r : SphLensResult) : LensShape :=
  match r.primitive with
  | .cylinder _ => .plainCylinder
  | .meniscus p =>
    if r.transform = Mat4.flip p.center_thickness then .negativeMeniscus else .positiveMeniscus
  | .biConvex _ => .biconvex
  | .biConcave _ => .biconcave
  | .planoConvex p =>
    if r.transform = Mat4.flip p.center_thickness then .convexPlano else .planoConvex
  | .planoConcave p =>
    if r.transform = Mat4.flip p.center_thickness then .concavePlano else .planoConcave

/-! ## Helper lemmas -/

/-- A flip transform is never the identity: its [0,0] entry is -1. -/
theorem flip_ne_id (t : ℚ) : Mat4.flip t ≠ Mat4.id := by
  intro h
  have h00 := congrFun (congrFun h 0) 0
  norm_num [Mat4.flip, Mat4.id] at h00

/-- sign only takes the values -1, 0 and 1. -/
theorem sign_cases (x : ℚ) : sign x = -1 ∨ sign x = 0 ∨ sign x = 1 := by
  unfold sign
  split
  · exact Or.inr (Or.inr rfl)
  · split
    · exact Or.inl rfl
    · exact Or.inr (Or.inl rfl)

/-- Inversion for a successful Except bind. -/
theorem bind_ok {α β : Type} {x : Except PyError α} {f : α → Except PyError β} {b : β}
    (h : (x >>= f) = Except.ok b) : ∃ a, x = Except.ok a ∧ f a = Except.ok b := by
  cases x with
  | error e => simp [Bind.bind, Except.bind] at h
  | ok a => exact ⟨a, rfl, by simpa [Bind.bind, Except.bind] using h⟩

/-- strUpper on the relevant literals. -/
theorem strUpper_empty : strUpper "" = "" := by decide

theorem strUpper_MIRROR : strUpper "MIRROR" = "MIRROR" := by decide

theorem strUpper_F_SILICA : strUpper "F_SILICA" = "F_SILICA" := by decide

/-! ## C2: mirror direction toggling -/

/-- C2 (code_bug evaluation): starting from the initial state (0 mirrors
passed, direction +1), traversing two consecutive full-reflector surfaces
(material exactly "MIRROR", no intervening coordinate breaks) leaves the
propagation direction at -1, not at the documented +1: the direction is
negated only on odd values of the incremented counter, so the second
traversal does not negate it back. -/
theorem mirror_walk_two_mirrors_direction :
    (mirror_walk ["MIRROR", "MIRROR"]).mirrors_passed = 2 ∧
    (mirror_walk ["MIRROR", "MIRROR"]).current_direction = -1 := by
  constructor <;> decide

/-! ## C4: classifier totality -/

/-- C4 (code_bug evaluation): determine_primitive_type raises
AttributeError on a surface whose rectangular aperture field is set,
because line 67 of builders/common.py reads surface.aperture_type, an
attribute that no Surface class defines and no code path ever sets; the
claimed total (FLAT, RECTANGULAR) result is never produced. -/
theorem determine_primitive_type_aperture_raises :
    determine_primitive_type
      (.standard { radius := 0, semi_diameter := 1, aperture := some (1, 1) })
      = Except.error PyError.attributeError := by
  decide

/-! ## C9: only the exact material string "MIRROR" updates the bookkeeping -/

/-- C9: _process_mirror compares the material name to "MIRROR" with
case-sensitive string equality; for any other material name (including a
differently-cased one) it returns False and leaves both the mirror-pass
counter and the propagation direction unchanged, while the exact name
increments the counter. -/
theorem process_mirror_exact_match (st : NodeState) (material : String)
    (h : material ≠ "MIRROR") :
    process_mirror st material = (st, false) ∧
    (process_mirror st "MIRROR").1.mirrors_passed = st.mirrors_passed + 1 := by
  constructor
  · simp [process_mirror, h]
  · simp [process_mirror]

/-- Witness for C9 at a concrete input: the lower-case name "mirror" leaves
the initial state unchanged. -/
theorem process_mirror_exact_match_witness :
    process_mirror NodeState.initial "mirror" = (NodeState.initial, false) ∧
    (process_mirror NodeState.initial "MIRROR").1.mirrors_passed
      = NodeState.initial.mirrors_passed + 1 :=
  process_mirror_exact_match NodeState.initial "mirror" (by decide)

/-! ## C10: material lookup requires an exact catalogue key -/

/-- C10: find_material returns the pass-through material for the empty
name; for a name that is not itself a MATERIALS key while its upper-cased
form is one, the membership test passes but the lookup MATERIALS[name]
raises KeyError; and a name that is a key returns its catalogue entry.
This holds for every content of the external Schott catalogue. -/
theorem find_material_exact_key (schottData : List String) (name : String) :
    (name = "" → find_material schottData name = Except.ok Material.null) ∧
    (materialsContains (strUpper name) = true → MATERIALS.lookup name = none →
      find_material schottData name = Except.error PyError.keyError) ∧
    (∀ m, MATERIALS.lookup name = some m → find_material schottData name = Except.ok m) := by
  refine ⟨fun he => by simp [find_material, he], fun hc hn => ?_, fun m hm => ?_⟩
  · by_cases he : name = ""
    · rw [he, strUpper_empty] at hc
      exact absurd hc (by decide)
    · simp [find_material, he, hc, hn]
  · have hname : name = "MIRROR" ∨ name = "F_SILICA" := by
      simp only [MATERIALS, List.lookup] at hm
      split at hm
      · exact Or.inl (by simpa using (beq_iff_eq.mp (by assumption)))
      · split at hm
        · exact Or.inr (by simpa using (beq_iff_eq.mp (by assumption)))
        · simp at hm
    rcases hname with hname | hname <;> subst hname
    · have hm2 : Material.perfectReflecting = m := by
        simpa [MATERIALS, List.lookup] using hm
      subst hm2
      simp [find_material, strUpper_MIRROR, materialsContains, MATERIALS, List.lookup]
    · have hm2 : Material.fusedSilica = m := by
        simpa [MATERIALS, List.lookup] using hm
      subst hm2
      simp [find_material, strUpper_F_SILICA, materialsContains, MATERIALS, List.lookup]

/-- Witness for C10 at concrete inputs: the empty name yields the
pass-through material, and "mirror" (upper-cased form is a key, the name
itself is not) raises KeyError. -/
theorem find_material_exact_key_witness :
    find_material [] "" = Except.ok Material.null ∧
    find_material [] "mirror" = Except.error PyError.keyError :=
  ⟨(find_material_exact_key [] "").1 rfl,
   (find_material_exact_key [] "mirror").2.1 (by decide) (by decide)⟩

/-! ## C7: the small-number floor -/

/-- C7 (counterexample): a mirror builder succeeds on a surface of
thickness exactly 0 (and semi-diameter 1), so the claim that every builder
rejects a thickness below the 1e-8 floor - in particular thickness 0 - is
false: the thickness guard is `0 < thickness < 1e-8`, which 0 does not
satisfy. -/
theorem small_numbers_zero_thickness_passes :
    sphericalMirrorBuilder_build [] (.standard { radius := 1, thickness := 0, semi_diameter := 1 })
      1 (some Material.perfectReflecting)
      = Except.ok (SphericalMirror.round 2 1 0 0 0 Material.perfectReflecting "",
          Mat4.translate 0 0 mirrorCenterThickness) := by
  norm_num [sphericalMirrorBuilder_build, check_for_small_numbers, determine_primitive_type,
    STSurface.data, SMALL_NUMBER, sign, transform_according_to_direction,
    SphericalMirror.center_thickness, resolve_material, Bind.bind, Except.bind, pure, Except.pure]

/-- C7 (amended): the shared check _check_for_small_numbers rejects exactly
the surfaces whose semi-diameter is below 1e-8 or whose thickness is
strictly between 0 and 1e-8; a thickness of exactly 0 or below passes the
thickness guard. -/
theorem check_for_small_numbers_floor (s : SurfaceData) :
    check_for_small_numbers s = Except.error PyError.cannotCreatePrimitive ↔
      (s.semi_diameter < SMALL_NUMBER ∨ (0 < s.thickness ∧ s.thickness < SMALL_NUMBER)) := by
  unfold check_for_small_numbers
  split
  · simp_all
  · split
    · simp_all
    · simp_all

/-- Witness for C7's amended statement at a concrete input: a surface of
semi-diameter 1 and thickness 0 is not rejected. -/
theorem check_for_small_numbers_floor_witness :
    ¬ (check_for_small_numbers { semi_diameter := 1, thickness := 0 }
        = Except.error PyError.cannotCreatePrimitive) := by
  rw [check_for_small_numbers_floor { semi_diameter := 1, thickness := 0 }]
  norm_num [SMALL_NUMBER]

/-! ## C8: Toroidal.create keyed-parameter requirement -/

/-- C8 (counterexample): a TOROIDAL record carrying exactly one keyed
parameter (key 1, the horizontal radius) is rejected with ValueError by
Toroidal.create, although the claim says one keyed parameter suffices. -/
theorem Toroidal_create_one_param_fails :
    Toroidal_create { type := "TOROIDAL", parm := [(1, 1)] } 1
      = Except.error PyError.valueError := by
  decide

/-- C8 (amended): Toroidal.create accepts the TOROIDAL/BICONICX type tags
and requires at least 2 keyed parameters; with fewer than 2 (in particular
none) it fails with ValueError, and with at least 2 including key 1 it
succeeds, scaling parameter 1 into the horizontal radius. -/
theorem Toroidal_create_param_requirements (d : SurfaceDescription) (u : ℚ)
    (htype : d.type = "TOROIDAL" ∨ d.type = "BICONICX") :
    (d.parm.length < 2 → Toroidal_create d u = Except.error PyError.valueError) ∧
    (∀ p1, 2 ≤ d.parm.length → d.parm.lookup 1 = some p1 →
      Toroidal_create d u
        = Except.ok (.toroidal (surfaceBuilder_build d u) (p1 * u))) := by
  have hty : ¬ (d.type ≠ "TOROIDAL" ∧ d.type ≠ "BICONICX") := by
    rcases htype with h | h <;> simp [h]
  constructor
  · intro hlen
    simp [Toroidal_create, hty, hlen]
  · intro p1 hlen hlook
    simp [Toroidal_create, hty, Nat.not_lt.mpr hlen, hlook]

/-- Witness for C8's amended statement at a concrete input: a record with
two keyed parameters builds a Toroidal surface with horizontal radius 5,
and a record with an empty parameter dict fails. -/
theorem Toroidal_create_param_requirements_witness :
    Toroidal_create { type := "TOROIDAL", parm := [(1, 5), (2, 0)] } 1
      = Except.ok (.toroidal
          (surfaceBuilder_build { type := "TOROIDAL", parm := [(1, 5), (2, 0)] } 1) (5 * 1)) ∧
    Toroidal_create { type := "TOROIDAL", parm := [] } 1
      = Except.error PyError.valueError :=
  ⟨(Toroidal_create_param_requirements _ 1 (Or.inl rfl)).2 5 (by decide) (by decide),
   (Toroidal_create_param_requirements _ 1 (Or.inl rfl)).1 (by decide)⟩

/-! ## C3: the classifier's curvature mapping -/

/-- C3: on every surface on which it returns (every aperture-free surface),
determine_primitive_type computes exactly the documented SurfaceType - for
a Standard surface FLAT iff radius is 0 and SPHERICAL otherwise, and for a
Toroidal surface the FLAT/SPHERICAL/TOROIDAL/CYLINDRICAL split on
(|radius|, |radius_horizontal|) with the 1e-8 equality tolerance - paired
with the ROUND shape. -/
theorem determine_primitive_type_matches_spec (s : STSurface)
    (h : s.data.aperture = none) :
    determine_primitive_type s = Except.ok (specSurfaceType s, ShapeType.ROUND) := by
  cases s with
  | standard d =>
    simp only [STSurface.data] at h
    simp [determine_primitive_type, specSurfaceType, STSurface.data, h]
  | toroidal d radius_horizontal =>
    simp only [STSurface.data] at h
    by_cases h1 : |d.radius| = 0 <;>
      by_cases h2 : |radius_horizontal| = 0 <;>
        by_cases h3 : abs (|d.radius| - |radius_horizontal|) < SMALL_NUMBER <;>
          simp [determine_primitive_type, specSurfaceType, STSurface.data, h, h1, h2, h3]

/-- Witness for C3 at a concrete input: a Toroidal surface with radii 2 and
1 classifies as (TOROIDAL, ROUND). -/
theorem determine_primitive_type_matches_spec_witness :
    determine_primitive_type (.toroidal { radius := 2 } 1)
      = Except.ok (specSurfaceType (.toroidal { radius := 2 } 1), ShapeType.ROUND) :=
  determine_primitive_type_matches_spec (.toroidal { radius := 2 } 1) rfl

/-! ## C6: mirror orientation transforms -/

/-- Multiplying by the identity on the right changes nothing. -/
theorem Mat4.mul_id (a : Mat4) : Mat4.mul a Mat4.id = a := by
  funext i j
  unfold Mat4.mul Mat4.id
  fin_cases j <;> simp

/-- Multiplying by the identity on the left changes nothing. -/
theorem Mat4.id_mul (a : Mat4) : Mat4.mul Mat4.id a = a := by
  funext i j
  unfold Mat4.mul Mat4.id
  fin_cases i <;> simp

/-- A successful spherical mirror build leaves exactly the
transform_according_to_direction transform, keyed on the sign of the
surface's radius, on the primitive. -/
theorem spherical_mirror_build_transform (schottData : List String) (s : STSurface)
    (direction : ℤ) (material : Option Material) (m : SphericalMirror) (T : Mat4)
    (h : sphericalMirrorBuilder_build schottData s direction material = Except.ok (m, T)) :
    T = transform_according_to_direction mirrorCenterThickness direction
          (sign s.data.radius) := by
  unfold sphericalMirrorBuilder_build at h
  cases hcs : check_for_small_numbers s.data with
  | error e => rw [hcs] at h; simp [Bind.bind, Except.bind] at h
  | ok u =>
  rw [hcs] at h
  cases hdet : determine_primitive_type s with
  | error e => rw [hdet] at h; simp [Bind.bind, Except.bind] at h
  | ok stsh =>
  rw [hdet] at h
  simp only [Bind.bind, Except.bind] at h
  split at h
  · simp at h
  · split at h
    · simp at h
    · cases hrm : resolve_material schottData material s.data.material with
      | error e => rw [hrm] at h; simp [Bind.bind, Except.bind] at h
      | ok mat =>
        rw [hrm] at h
        simp only [Bind.bind, Except.bind, Except.ok.injEq, Prod.mk.injEq] at h
        rw [← h.2, SphericalMirror.center_thickness]

/-- A successful cylindrical mirror build on a vertically-curved surface
(radius nonzero) leaves exactly the transform_according_to_direction
transform, keyed on the sign of the radius (its axis rotation factor is the
identity in this orientation). -/
theorem cylindrical_mirror_build_transform (schottData : List String) (d : SurfaceData)
    (radius_horizontal : ℚ) (direction : ℤ) (material : Option Material)
    (m : CylindricalMirror) (T : Mat4)
    (hv : d.radius ≠ 0)
    (h : cylindricalMirrorBuilder_build schottData (.toroidal d radius_horizontal)
          direction material = Except.ok (m, T)) :
    T = transform_according_to_direction mirrorCenterThickness direction (sign d.radius) := by
  simp only [cylindricalMirrorBuilder_build] at h
  cases hcs : check_for_small_numbers d with
  | error e => rw [hcs] at h; simp [Bind.bind, Except.bind] at h
  | ok u =>
  rw [hcs] at h
  cases hdet : determine_primitive_type (.toroidal d radius_horizontal) with
  | error e => rw [hdet] at h; simp [Bind.bind, Except.bind] at h
  | ok stsh =>
  rw [hdet] at h
  simp only [Bind.bind, Except.bind] at h
  split at h
  · simp at h
  · split at h
    · simp at h
    · split at h
      · simp at h
      · cases hrm : resolve_material schottData material d.material with
        | error e => rw [hrm] at h; simp at h
        | ok mat =>
          rw [hrm] at h
          simp only [Except.ok.injEq, Prod.mk.injEq] at h
          rw [← h.2, CylindricalMirror.center_thickness, Mat4.mul_id]

/-- A successful cylindrical mirror build on a horizontally-curved surface
(radius zero, so the curvature comes from radius_horizontal) leaves the
transform_according_to_direction transform keyed on the sign of
radius_horizontal, composed with the builder's 90-degree axis rotation. -/
theorem cylindrical_mirror_build_transform_horizontal (schottData : List String)
    (d : SurfaceData) (radius_horizontal : ℚ) (direction : ℤ) (material : Option Material)
    (m : CylindricalMirror) (T : Mat4)
    (hv : d.radius = 0)
    (h : cylindricalMirrorBuilder_build schottData (.toroidal d radius_horizontal)
          direction material = Except.ok (m, T)) :
    T = Mat4.mul
          (transform_according_to_direction mirrorCenterThickness direction
            (sign radius_horizontal)) Mat4.rotate_z_90 := by
  simp only [cylindricalMirrorBuilder_build] at h
  cases hcs : check_for_small_numbers d with
  | error e => rw [hcs] at h; simp [Bind.bind, Except.bind] at h
  | ok u =>
  rw [hcs] at h
  cases hdet : determine_primitive_type (.toroidal d radius_horizontal) with
  | error e => rw [hdet] at h; simp [Bind.bind, Except.bind] at h
  | ok stsh =>
  rw [hdet] at h
  simp only [Bind.bind, Except.bind] at h
  split at h
  · simp at h
  · split at h
    · simp at h
    · rw [if_neg (by simp [hv])] at h
      split at h
      · cases hrm : resolve_material schottData material d.material with
        | error e => rw [hrm] at h; simp at h
        | ok mat =>
          rw [hrm] at h
          simp only [Except.ok.injEq, Prod.mk.injEq] at h
          rw [← h.2, CylindricalMirror.center_thickness]
      · simp at h

/-- A successful toric mirror build leaves only the 180-degree rotation for
(direction 1, negative curvature sign) and no transform at all otherwise:
the transform_according_to_direction call is commented out in the source,
so no axial shift is ever applied. -/
theorem toric_mirror_build_transform (schottData : List String) (d : SurfaceData)
    (radius_horizontal : ℚ) (direction : ℤ) (material : Option Material)
    (m : ToricMirror) (T : Mat4)
    (h : toricMirrorBuilder_build schottData (.toroidal d radius_horizontal)
          direction material = Except.ok (m, T)) :
    T = if direction = 1 ∧ sign d.radius = -1 then Mat4.rotate_y_180 else Mat4.id := by
  simp only [toricMirrorBuilder_build] at h
  cases hcs : check_for_small_numbers d with
  | error e => rw [hcs] at h; simp [Bind.bind, Except.bind] at h
  | ok u =>
  rw [hcs] at h
  cases hdet : determine_primitive_type (.toroidal d radius_horizontal) with
  | error e => rw [hdet] at h; simp [Bind.bind, Except.bind] at h
  | ok stsh =>
  rw [hdet] at h
  simp only [Bind.bind, Except.bind] at h
  split at h
  · simp at h
  · split at h
    · simp at h
    · split at h
      · simp at h
      · cases hrm : resolve_material schottData material d.material with
        | error e => rw [hrm] at h; simp [Bind.bind, Except.bind] at h
        | ok mat =>
          rw [hrm] at h
          simp only [Bind.bind, Except.bind, Except.ok.injEq, Prod.mk.injEq] at h
          exact h.2.symm

/-- C6 (counterexample): the toric mirror builder, on a toroidal surface of
positive curvature sign with propagation direction +1, leaves the identity
transform on the primitive - not the axial shift by the primitive's own
center thickness that the claim requires for every family. -/
theorem toric_mirror_positive_sign_not_shifted :
    toricMirrorBuilder_build []
        (.toroidal { radius := 2, thickness := 1, semi_diameter := 1 } 1) 1
        (some Material.perfectReflecting)
      = Except.ok
          ({ diameter := 2, vertical_curvature := 2, horizontal_curvature := 1,
             material := Material.perfectReflecting, name := "" }, Mat4.id) ∧
    Mat4.id ≠ Mat4.translate 0 0
      (ToricMirror.center_thickness
        { diameter := 2, vertical_curvature := 2, horizontal_curvature := 1,
          material := Material.perfectReflecting, name := "" }) := by
  constructor
  · norm_num [toricMirrorBuilder_build, check_for_small_numbers, determine_primitive_type,
      STSurface.data, SMALL_NUMBER, sign, resolve_material, Bind.bind, Except.bind, pure,
      Except.pure]
  · intro hcontra
    have h23 := congrFun (congrFun hcontra 2) 3
    simp only [Mat4.id, Mat4.translate, ToricMirror.center_thickness, mirrorCenterThickness,
      DEFAULT_THICKNESS, show ((2 : Fin 4) = 3) = False from by decide,
      show ((2 : Fin 4) = 0) = False from by decide,
      show ((2 : Fin 4) = 1) = False from by decide, if_false] at h23
    norm_num at h23

/-- C6 (amended): for the spherical mirror builder, direction +1 with
curvature sign +1 yields the pure axial translation by the primitive's own
center thickness, direction +1 with sign -1 yields the 180-degree rotation
about y, and any other direction yields no extra transform.  The
cylindrical builder follows the same table keyed on its effective curvature
sign - the sign of radius for a vertically-curved surface (axis rotation
factor the identity), the sign of radius_horizontal for a
horizontally-curved one, composed with the builder's 90-degree axis
rotation.  The toric builder applies only the (direction +1, sign -1)
rotation and no transform in every other case - in particular no axial
shift for (direction +1, sign +1). -/
theorem mirror_builder_direction_transforms (schottData : List String)
    (s_sph : STSurface) (d_cyl : SurfaceData) (rh_cyl : ℚ) (d_tor : SurfaceData) (rh_tor : ℚ)
    (direction : ℤ) (material : Option Material)
    (msph : SphericalMirror) (Tsph : Mat4) (mcyl : CylindricalMirror) (Tcyl : Mat4)
    (mtor : ToricMirror) (Ttor : Mat4)
    (hsph : sphericalMirrorBuilder_build schottData s_sph direction material
      = Except.ok (msph, Tsph))
    (hcyl : cylindricalMirrorBuilder_build schottData (.toroidal d_cyl rh_cyl)
      direction material = Except.ok (mcyl, Tcyl))
    (htor : toricMirrorBuilder_build schottData (.toroidal d_tor rh_tor)
      direction material = Except.ok (mtor, Ttor)) :
    ((direction = 1 ∧ sign s_sph.data.radius = 1 →
        Tsph = Mat4.translate 0 0 msph.center_thickness) ∧
      (direction = 1 ∧ sign s_sph.data.radius = -1 → Tsph = Mat4.rotate_y_180) ∧
      (direction ≠ 1 → Tsph = Mat4.id)) ∧
    ((d_cyl.radius ≠ 0 →
        (direction = 1 ∧ sign d_cyl.radius = 1 →
          Tcyl = Mat4.translate 0 0 mcyl.center_thickness) ∧
        (direction = 1 ∧ sign d_cyl.radius = -1 → Tcyl = Mat4.rotate_y_180) ∧
        (direction ≠ 1 → Tcyl = Mat4.id)) ∧
      (d_cyl.radius = 0 →
        (direction = 1 ∧ sign rh_cyl = 1 →
          Tcyl = Mat4.mul (Mat4.translate 0 0 mcyl.center_thickness) Mat4.rotate_z_90) ∧
        (direction = 1 ∧ sign rh_cyl = -1 →
          Tcyl = Mat4.mul Mat4.rotate_y_180 Mat4.rotate_z_90) ∧
        (direction ≠ 1 → Tcyl = Mat4.rotate_z_90))) ∧
    ((direction = 1 ∧ sign d_tor.radius = -1 → Ttor = Mat4.rotate_y_180) ∧
      (¬ (direction = 1 ∧ sign d_tor.radius = -1) → Ttor = Mat4.id)) := by
  have hs := spherical_mirror_build_transform schottData s_sph direction material msph Tsph hsph
  have ht := toric_mirror_build_transform schottData d_tor rh_tor direction material
    mtor Ttor htor
  refine ⟨⟨fun hcase => ?_, fun hcase => ?_, fun hcase => ?_⟩,
    ⟨fun hv => ?_, fun hv0 => ?_⟩,
    ⟨fun hcase => ?_, fun hcase => ?_⟩⟩
  · rw [hs, transform_according_to_direction, if_pos hcase]
    rfl
  · rw [hs, transform_according_to_direction, if_neg (by omega), if_pos hcase]
  · rw [hs, transform_according_to_direction, if_neg (by omega), if_neg (by omega)]
  · have hc := cylindrical_mirror_build_transform schottData d_cyl rh_cyl direction material
      mcyl Tcyl hv hcyl
    refine ⟨fun hcase => ?_, fun hcase => ?_, fun hcase => ?_⟩
    · rw [hc, transform_according_to_direction, if_pos hcase]
      rfl
    · rw [hc, transform_according_to_direction, if_neg (by omega), if_pos hcase]
    · rw [hc, transform_according_to_direction, if_neg (by omega), if_neg (by omega)]
  · have hch := cylindrical_mirror_build_transform_horizontal schottData d_cyl rh_cyl
      direction material mcyl Tcyl hv0 hcyl
    refine ⟨fun hcase => ?_, fun hcase => ?_, fun hcase => ?_⟩
    · rw [hch, transform_according_to_direction, if_pos hcase]
      rfl
    · rw [hch, transform_according_to_direction, if_neg (by omega), if_pos hcase]
    · rw [hch, transform_according_to_direction, if_neg (by omega), if_neg (by omega)]
      exact Mat4.id_mul _
  · rw [ht, if_pos hcase]
  · rw [ht, if_neg hcase]

/-- Witness for C6's amended statement at concrete inputs: direction +1; a
spherical surface of positive sign receives the axial shift, a
horizontally-curved cylindrical surface (radius 0, radius_horizontal 3)
receives the axial shift composed with the 90-degree axis rotation, and a
toric surface of positive sign receives no transform. -/
theorem mirror_builder_direction_transforms_witness :
    (((1 : ℤ) = 1 ∧ sign ((2 : ℚ)) = 1 →
        Mat4.translate 0 0 mirrorCenterThickness
          = Mat4.translate 0 0
              ((SphericalMirror.round 2 2 0 0 0 Material.perfectReflecting "").center_thickness)) ∧
      ((1 : ℤ) = 1 ∧ sign ((2 : ℚ)) = -1 →
        Mat4.translate 0 0 mirrorCenterThickness = Mat4.rotate_y_180) ∧
      ((1 : ℤ) ≠ 1 → Mat4.translate 0 0 mirrorCenterThickness = Mat4.id)) ∧
    (((0 : ℚ) ≠ 0 →
        ((1 : ℤ) = 1 ∧ sign ((0 : ℚ)) = 1 →
          Mat4.mul (Mat4.translate 0 0 mirrorCenterThickness) Mat4.rotate_z_90
            = Mat4.translate 0 0
                ((CylindricalMirror.round 2 3 0 0 0 Material.perfectReflecting "").center_thickness)) ∧
        ((1 : ℤ) = 1 ∧ sign ((0 : ℚ)) = -1 →
          Mat4.mul (Mat4.translate 0 0 mirrorCenterThickness) Mat4.rotate_z_90
            = Mat4.rotate_y_180) ∧
        ((1 : ℤ) ≠ 1 →
          Mat4.mul (Mat4.translate 0 0 mirrorCenterThickness) Mat4.rotate_z_90 = Mat4.id)) ∧
      ((0 : ℚ) = 0 →
        ((1 : ℤ) = 1 ∧ sign ((3 : ℚ)) = 1 →
          Mat4.mul (Mat4.translate 0 0 mirrorCenterThickness) Mat4.rotate_z_90
            = Mat4.mul
                (Mat4.translate 0 0
                  ((CylindricalMirror.round 2 3 0 0 0 Material.perfectReflecting
                    "").center_thickness)) Mat4.rotate_z_90) ∧
        ((1 : ℤ) = 1 ∧ sign ((3 : ℚ)) = -1 →
          Mat4.mul (Mat4.translate 0 0 mirrorCenterThickness) Mat4.rotate_z_90
            = Mat4.mul Mat4.rotate_y_180 Mat4.rotate_z_90) ∧
        ((1 : ℤ) ≠ 1 →
          Mat4.mul (Mat4.translate 0 0 mirrorCenterThickness) Mat4.rotate_z_90
            = Mat4.rotate_z_90))) ∧
    (((1 : ℤ) = 1 ∧ sign ((2 : ℚ)) = -1 → Mat4.id = Mat4.rotate_y_180) ∧
      (¬ ((1 : ℤ) = 1 ∧ sign ((2 : ℚ)) = -1) → Mat4.id = Mat4.id)) := by
  have happ := mirror_builder_direction_transforms []
    (.standard { radius := 2, thickness := 1, semi_diameter := 1 })
    { radius := 0, thickness := 1, semi_diameter := 1 } 3
    { radius := 2, thickness := 1, semi_diameter := 1 } 1
    1 (some Material.perfectReflecting)
    (SphericalMirror.round 2 2 0 0 0 Material.perfectReflecting "")
    (Mat4.translate 0 0 mirrorCenterThickness)
    (CylindricalMirror.round 2 3 0 0 0 Material.perfectReflecting "")
    (Mat4.mul (Mat4.translate 0 0 mirrorCenterThickness) Mat4.rotate_z_90)
    { diameter := 2, vertical_curvature := 2, horizontal_curvature := 1,
      material := Material.perfectReflecting, name := "" }
    Mat4.id
    (by norm_num [sphericalMirrorBuilder_build, check_for_small_numbers,
      determine_primitive_type, STSurface.data, SMALL_NUMBER, sign,
      transform_according_to_direction, SphericalMirror.center_thickness,
      resolve_material, Bind.bind, Except.bind, pure, Except.pure])
    (by norm_num [cylindricalMirrorBuilder_build, check_for_small_numbers,
      determine_primitive_type, STSurface.data, SMALL_NUMBER, sign,
      transform_according_to_direction, CylindricalMirror.center_thickness,
      resolve_material, Bind.bind, Except.bind, pure, Except.pure])
    (by norm_num [toricMirrorBuilder_build, check_for_small_numbers,
      determine_primitive_type, STSurface.data, SMALL_NUMBER, sign,
      resolve_material, Bind.bind, Except.bind, pure, Except.pure])
  exact happ

/-! ## C5: flat-flat pairs per family -/

/-- C5 (counterexample): the cylindrical lens builder rejects a flat-flat
pair outright with CannotCreatePrimitive ("both surfaces are flat",
cylindrical.py:243), instead of producing the degenerate cylinder the
claim promises for all three families. -/
theorem cylindrical_flat_flat_fails :
    cylindricalLensBuilder_build []
        (.toroidal { name := "b", radius := 0, thickness := 1, material := "F_SILICA"
                     semi_diameter := 1 } 0)
        (.toroidal { radius := 0, semi_diameter := 1 } 0) none
      = Except.error PyError.cannotCreatePrimitive := by
  norm_num [cylindricalLensBuilder_build, material_precheck, check_for_material,
    check_for_small_numbers, determine_primitive_type, STSurface.data, SMALL_NUMBER,
    Bind.bind, Except.bind, pure, Except.pure]
  decide

/-- C5 (amended): on a flat-flat pair (every curvature radius zero)
satisfying the other preconditions, only the spherical family yields the
degenerate plain cylinder; the cylindrical family fails with
CannotCreatePrimitive at its explicit both-flat guard, and the toroidal
family fails with ValueError because its mixed-sign guard
`sign(radius) == -sign(radius_horizontal)` fires on two zero signs. -/
theorem flat_flat_pair_by_family (schottData : List String) (b f : SurfaceData)
    (mat : Material)
    (hbr : b.radius = 0) (hfr : f.radius = 0)
    (hba : b.aperture = none) (hfa : f.aperture = none)
    (hbm : ¬ b.material = "")
    (hfind : find_material schottData b.material = Except.ok mat)
    (hbsd : ¬ b.semi_diameter < SMALL_NUMBER) (hfsd : ¬ f.semi_diameter < SMALL_NUMBER)
    (hbt : ¬ (0 < b.thickness ∧ b.thickness < SMALL_NUMBER))
    (hft : ¬ (0 < f.thickness ∧ f.thickness < SMALL_NUMBER)) :
    sphericalLensBuilder_build schottData (.toroidal b 0) (.toroidal f 0) none
      = Except.ok ⟨.cylinder
          ⟨b.semi_diameter, pyOr b.thickness DEFAULT_THICKNESS, mat, b.name⟩, Mat4.id⟩ ∧
    cylindricalLensBuilder_build schottData (.toroidal b 0) (.toroidal f 0) none
      = Except.error PyError.cannotCreatePrimitive ∧
    toricLensBuilder_build schottData (.toroidal b 0) (.toroidal f 0) 1 none
      = Except.error PyError.valueError := by
  refine ⟨?_, ?_, ?_⟩ <;>
    simp [sphericalLensBuilder_build, sphericalLensBuilder_extract,
      sphericalLensBuilder_dispatch, cylindricalLensBuilder_build, toricLensBuilder_build,
      create_cylinder, material_precheck, check_for_material, check_for_small_numbers,
      determine_primitive_type, resolve_material, STSurface.data, sign,
      hbr, hfr, hba, hfa, hbm, hfind, hbsd, hfsd, hbt, hft,
      Bind.bind, Except.bind, pure, Except.pure]

/-- Witness for C5's amended statement at a concrete flat-flat pair. -/
theorem flat_flat_pair_by_family_witness :
    sphericalLensBuilder_build []
        (.toroidal { name := "b", radius := 0, thickness := 1, material := "F_SILICA"
                     semi_diameter := 1 } 0)
        (.toroidal { radius := 0, semi_diameter := 1 } 0) none
      = Except.ok ⟨.cylinder ⟨1, pyOr 1 DEFAULT_THICKNESS, Material.fusedSilica, "b"⟩, Mat4.id⟩ ∧
    cylindricalLensBuilder_build []
        (.toroidal { name := "b", radius := 0, thickness := 1, material := "F_SILICA"
                     semi_diameter := 1 } 0)
        (.toroidal { radius := 0, semi_diameter := 1 } 0) none
      = Except.error PyError.cannotCreatePrimitive ∧
    toricLensBuilder_build []
        (.toroidal { name := "b", radius := 0, thickness := 1, material := "F_SILICA"
                     semi_diameter := 1 } 0)
        (.toroidal { radius := 0, semi_diameter := 1 } 0) 1 none
      = Except.error PyError.valueError :=
  flat_flat_pair_by_family [] _ _ Material.fusedSilica rfl rfl rfl rfl
    (by decide) (by decide) (by norm_num [SMALL_NUMBER]) (by norm_num [SMALL_NUMBER])
    (by norm_num [SMALL_NUMBER]) (by norm_num [SMALL_NUMBER])

/-! ## C1: the spherical lens decision table -/

/-- The identity is never a flip transform. -/
theorem id_eq_flip_iff_false (t : ℚ) : (Mat4.id = Mat4.flip t) ↔ False :=
  ⟨fun hh => flip_ne_id t hh.symm, False.elim⟩

/-- A flip transform always recognises itself. -/
theorem flip_eq_flip_self (t : ℚ) : (Mat4.flip t = Mat4.flip t) ↔ True := by simp

/-- Reduction of a bind on a success value. -/
theorem ok_bind {α β : Type} (a : α) (f : α → Except PyError β) :
    (Except.ok a >>= f) = f a := rfl

/-- Reduction of a bind on an error value. -/
theorem err_bind {α β : Type} (e : PyError) (f : α → Except PyError β) :
    ((Except.error e : Except PyError α) >>= f) = Except.error e := rfl

/-- A successful extraction stores the absolute radii of the two surfaces
as the back and front curvature parameters. -/
theorem spherical_extract_curvatures (schottData : List String) (back front : STSurface)
    (material : Option Material) (p : SphLensParams)
    (h : sphericalLensBuilder_extract schottData back front material = Except.ok p) :
    p.back_curvature = |back.data.radius| ∧ p.front_curvature = |front.data.radius| := by
  unfold sphericalLensBuilder_extract at h
  cases hmp : material_precheck material back.data with
  | error e => rw [hmp, err_bind] at h; simp at h
  | ok u1 =>
  rw [hmp] at h
  simp only [ok_bind] at h
  cases hcb : check_for_small_numbers back.data with
  | error e => rw [hcb, err_bind] at h; simp at h
  | ok u2 =>
  rw [hcb] at h
  simp only [ok_bind] at h
  cases hcf : check_for_small_numbers front.data with
  | error e => rw [hcf, err_bind] at h; simp at h
  | ok u3 =>
  rw [hcf] at h
  simp only [ok_bind] at h
  cases hdb : determine_primitive_type back with
  | error e => rw [hdb, err_bind] at h; simp at h
  | ok bst =>
  obtain ⟨bt, bsh⟩ := bst
  rw [hdb] at h
  simp only [ok_bind] at h
  cases hdf : determine_primitive_type front with
  | error e => rw [hdf, err_bind] at h; simp at h
  | ok fst =>
  obtain ⟨ft, fsh⟩ := fst
  rw [hdf] at h
  simp only [ok_bind] at h
  split at h
  · simp at h
  · split at h
    · simp at h
    · cases hrm : resolve_material schottData material back.data.material with
      | error e => rw [hrm, err_bind] at h; simp at h
      | ok mat =>
        rw [hrm] at h
        simp only [ok_bind, Except.ok.injEq] at h
        rw [← h]
        exact ⟨rfl, rfl⟩

/-- C1: whenever SphericalLensBuilder.build succeeds, the shape of the
result is selected solely by the ordered pair of radius signs exactly as
the documented 9-entry table prescribes, and in the (+1,+1) case the
meniscus is built with the back/front curvature magnitudes swapped and a
flip transform applied. -/
theorem spherical_lens_build_shape (schottData : List String) (back front : STSurface)
    (material : Option Material) (r : SphLensResult)
    (h : sphericalLensBuilder_build schottData back front material = Except.ok r) :
    some r.shape = shapeTable (sign back.data.radius) (sign front.data.radius) ∧
    (sign back.data.radius = 1 ∧ sign front.data.radius = 1 →
      ∃ p, r.primitive = SphericalLensPrimitive.meniscus p ∧
        p.back_curvature = |front.data.radius| ∧ p.front_curvature = |back.data.radius| ∧
        r.transform = Mat4.flip p.center_thickness) := by
  unfold sphericalLensBuilder_build at h
  cases hex : sphericalLensBuilder_extract schottData back front material with
  | error e => rw [hex, err_bind] at h; simp at h
  | ok p =>
  rw [hex, ok_bind] at h
  unfold sphericalLensBuilder_dispatch at h
  simp only [] at h
  rcases lt_trichotomy back.data.radius 0 with hb | hb | hb <;>
    rcases lt_trichotomy front.data.radius 0 with hf | hf | hf
  · -- (-1, -1): positive meniscus
    have hsb : sign back.data.radius = -1 := by simp [sign, hb, asymm hb]
    have hsf : sign front.data.radius = -1 := by simp [sign, hf, asymm hf]
    rw [hsb, hsf] at h
    norm_num at h
    rw [← h]
    norm_num [SphLensResult.shape, shapeTable, hsb, hsf, id_eq_flip_iff_false]
  · -- (-1, 0): concave-plano, flipped single-curve
    have hsb : sign back.data.radius = -1 := by simp [sign, hb, asymm hb]
    have hsf : sign front.data.radius = 0 := by simp [sign, hf]
    rw [hsb, hsf] at h
    norm_num at h
    rw [← h]
    norm_num [SphLensResult.shape, shapeTable, hsb, hsf, flip_eq_flip_self]
  · -- (-1, +1): biconcave
    have hsb : sign back.data.radius = -1 := by simp [sign, hb, asymm hb]
    have hsf : sign front.data.radius = 1 := by simp [sign, hf]
    rw [hsb, hsf] at h
    norm_num at h
    rw [← h]
    norm_num [SphLensResult.shape, shapeTable, hsb, hsf]
  · -- (0, -1): plano-convex
    have hsb : sign back.data.radius = 0 := by simp [sign, hb]
    have hsf : sign front.data.radius = -1 := by simp [sign, hf, asymm hf]
    rw [hsb, hsf] at h
    norm_num at h
    rw [← h]
    norm_num [SphLensResult.shape, shapeTable, hsb, hsf, id_eq_flip_iff_false]
  · -- (0, 0): degenerate cylinder
    have hsb : sign back.data.radius = 0 := by simp [sign, hb]
    have hsf : sign front.data.radius = 0 := by simp [sign, hf]
    rw [hsb, hsf] at h
    norm_num at h
    cases hcc : create_cylinder schottData back with
    | error e => rw [hcc, err_bind] at h; simp at h
    | ok c =>
      rw [hcc, ok_bind, Except.ok.injEq] at h
      rw [← h]
      norm_num [SphLensResult.shape, shapeTable, hsb, hsf]
  · -- (0, +1): plano-concave
    have hsb : sign back.data.radius = 0 := by simp [sign, hb]
    have hsf : sign front.data.radius = 1 := by simp [sign, hf]
    rw [hsb, hsf] at h
    norm_num at h
    rw [← h]
    norm_num [SphLensResult.shape, shapeTable, hsb, hsf, id_eq_flip_iff_false]
  · -- (+1, -1): biconvex
    have hsb : sign back.data.radius = 1 := by simp [sign, hb]
    have hsf : sign front.data.radius = -1 := by simp [sign, hf, asymm hf]
    rw [hsb, hsf] at h
    norm_num at h
    rw [← h]
    norm_num [SphLensResult.shape, shapeTable, hsb, hsf]
  · -- (+1, 0): convex-plano, flipped single-curve
    have hsb : sign back.data.radius = 1 := by simp [sign, hb]
    have hsf : sign front.data.radius = 0 := by simp [sign, hf]
    rw [hsb, hsf] at h
    norm_num at h
    rw [← h]
    norm_num [SphLensResult.shape, shapeTable, hsb, hsf, flip_eq_flip_self]
  · -- (+1, +1): negative meniscus with swapped curvatures and a flip
    have hsb : sign back.data.radius = 1 := by simp [sign, hb]
    have hsf : sign front.data.radius = 1 := by simp [sign, hf]
    obtain ⟨hpb, hpf⟩ := spherical_extract_curvatures schottData back front material p hex
    rw [hsb, hsf] at h
    norm_num at h
    rw [← h]
    refine ⟨?_, fun _ => ⟨_, rfl, hpf, hpb, rfl⟩⟩
    norm_num [SphLensResult.shape, shapeTable, hsb, hsf, flip_eq_flip_self]

/-- Witness for C1 at a concrete input: a back surface of radius -2 and a
front surface of radius -1 build a positive meniscus, matching the table at
(-1, -1). -/
theorem spherical_lens_build_shape_witness :
    some ((⟨.meniscus ⟨2, 1, 2, 1, Material.fusedSilica, ""⟩, Mat4.id⟩ : SphLensResult).shape)
        = shapeTable (sign ((-2 : ℚ))) (sign ((-1 : ℚ))) ∧
    (sign ((-2 : ℚ)) = 1 ∧ sign ((-1 : ℚ)) = 1 →
      ∃ p, (⟨.meniscus ⟨2, 1, 2, 1, Material.fusedSilica, ""⟩, Mat4.id⟩
          : SphLensResult).primitive = SphericalLensPrimitive.meniscus p ∧
        p.back_curvature = |(-1 : ℚ)| ∧ p.front_curvature = |(-2 : ℚ)| ∧
        (⟨.meniscus ⟨2, 1, 2, 1, Material.fusedSilica, ""⟩, Mat4.id⟩ : SphLensResult).transform
          = Mat4.flip p.center_thickness) :=
  spherical_lens_build_shape []
    (.standard { radius := -2, thickness := 1, semi_diameter := 1, material := "F_SILICA" })
    (.standard { radius := -1, semi_diameter := 1 }) none
    ⟨.meniscus ⟨2, 1, 2, 1, Material.fusedSilica, ""⟩, Mat4.id⟩
    (by
      norm_num [sphericalLensBuilder_build, sphericalLensBuilder_extract,
        sphericalLensBuilder_dispatch, material_precheck, check_for_material,
        check_for_small_numbers, determine_primitive_type, STSurface.data, SMALL_NUMBER,
        sign, pyOr, pyOrStr, resolve_material, Bind.bind, Except.bind, pure, Except.pure]
      decide)

end Zemax
